import Mathlib

set_option maxRecDepth 100000

/-!
Verification of the streaming respiratory-rate pipeline in `app.py`
(breath counter fed by a Shimmer accelerometer).

The Python source is shallowly embedded: machine floats are modelled as
exact rationals (`ℚ`), the module-level deques as Lean lists, and the
side-effecting alert log as explicit state passing.  The SciPy calls
`butter`/`filtfilt` compute IIR coefficients from transcendental
functions, so the band-pass stage is kept as an abstract function
parameter `bandpass : List ℚ → List ℚ` wherever a property does not
depend on its numeric output, while peak finding
(`scipy.signal.find_peaks` with `distance` and `height` conditions) and
the moving-average smoothing (`numpy.convolve` in mode `same`) are
embedded operation by operation.  The internal scanning loops of
`find_peaks` are written with an explicit fuel argument that equals the
loop measure, so every definition is a structurally recursive, fully
evaluable function; each wrapper passes fuel that is at least the
number of iterations the Python/C loop performs, and at fuel zero the
loop guard is false, so the fuelled functions compute exactly what the
loops compute.
-/

namespace BreathApp

/-- `app.py` line 21: `SAMPLE_RATE = 48.72`. -/
def SAMPLE_RATE : ℚ := 4872 / 100

/-- Python `int()` on a float/rational: truncation toward zero. -/
def pyInt (q : ℚ) : ℤ :=
  if 0 ≤ q then ((q.num.toNat / q.den : ℕ) : ℤ)
  else -(((-q).num.toNat / (-q).den : ℕ) : ℤ)

/-- `app.py` line 22: `BUFFER_SIZE = int(120 * SAMPLE_RATE)`. -/
def BUFFER_SIZE : ℕ := (pyInt (120 * SAMPLE_RATE)).toNat

/-- `app.py` line 24: `MIN_PEAK_DISTANCE = int(1.5 * SAMPLE_RATE)`. -/
def MIN_PEAK_DISTANCE : ℕ := (pyInt (3 / 2 * SAMPLE_RATE)).toNat

/-- `app.py` line 23: `LOW_CUT = 0.1`. -/
def LOW_CUT : ℚ := 1 / 10

/-- `app.py` line 23: `HIGH_CUT = 0.5`. -/
def HIGH_CUT : ℚ := 1 / 2

/-- `app.py` line 25: `MIN_AMPLITUDE_CHANGE = 0.008`. -/
def MIN_AMPLITUDE_CHANGE : ℚ := 8 / 1000

/-- `app.py` lines 86-91: the sliding-window slider is configured with
`min=5`, so the UI rejects non-positive (indeed any `< 5`) window sizes
before a compute pass can observe them. -/
def slidingWindowSliderMin : ℕ := 5

/-- `app.py` line 89: slider `max=120`. -/
def slidingWindowSliderMax : ℕ := 120

/-- The Python slice `l[-k:]` for a nonnegative integer `k`.  For `k ≥ 1`
it yields the last `min k l.length` elements; for `k = 0` the slice is
`l[0:]`, the whole list (CPython semantics: `-0 = 0`). -/
def pySliceLast (k : ℕ) (l : List ℚ) : List ℚ :=
  if k = 0 then l else l.drop (l.length - k)

/-- The snapshot taken by `update_all_outputs` (`app.py` line 177):
`list(data_buffer)[-buffer_size:]` — a copy of the deque restricted by a
Python negative slice. -/
def snapshot (buf : List ℚ) (k : ℕ) : List ℚ := pySliceLast k buf

/-- One `deque(maxlen=cap).append(x)` step (`app.py` lines 28, 276):
the sample is appended and the deque is trimmed from the left to its
`maxlen` (for `cap > 0` this discards the oldest element exactly when
the deque is full; `maxlen=0` keeps the deque empty). -/
def dequePush (cap : ℕ) (buf : List ℚ) (x : ℚ) : List ℚ :=
  if buf.length < cap then buf ++ [x]
  else (buf ++ [x]).drop (buf.length + 1 - cap)

/-- Folding `dequePush` over a stream of samples, starting from a given
buffer state: the producer side (`shimmer_handler`) pushing one sample
per callback. -/
def dequePushAll (cap : ℕ) (buf : List ℚ) (xs : List ℚ) : List ℚ :=
  xs.foldl (dequePush cap) buf

/-- `app.py` line 174: `buffer_size = int(window_size_seconds * SAMPLE_RATE)`. -/
def windowBufferSize (window_size_seconds : ℕ) : ℕ :=
  (pyInt ((window_size_seconds : ℚ) * SAMPLE_RATE)).toNat

/-- Full discrete convolution of two sequences (`numpy.convolve` mode
`full`): output index `n` holds `Σ_m a[m] * v[n-m]`, output length
`M + N - 1`. -/
def npConvolveFull (a v : List ℚ) : List ℚ :=
  (List.range (a.length + v.length - 1)).map (fun n =>
    ((List.range (n + 1)).map (fun m => a.getD m 0 * v.getD (n - m) 0)).sum)

/-- `numpy.convolve` mode `same`: the centered slice of the full
convolution, of length `max M N` (starting at offset
`(min M N - 1) / 2` of the full output). -/
def npConvolveSame (a v : List ℚ) : List ℚ :=
  ((npConvolveFull a v).drop ((min a.length v.length - 1) / 2)).take
    (max a.length v.length)

/-- `app.py` line 250: the kernel `np.ones(5) / 5` (each entry is exactly
`0.2`, which is not representable-exactly in binary floating point but
is a single constant; the model uses the exact rational). -/
def movingAverageKernel : List ℚ := List.replicate 5 (1 / 5)

/-- `app.py` line 250:
`smoothed_signal = np.convolve(filtered_signal, np.ones(5)/5, mode='same')`. -/
def smooth (filtered_signal : List ℚ) : List ℚ :=
  npConvolveSame filtered_signal movingAverageKernel

/-- Inner plateau scan of SciPy's `_local_maxima_1d`
(`scipy/signal/_peak_finding_utils.pyx`): starting at `i_ahead`,
advance while `i_ahead < i_max` and `x[i_ahead] == x[i]` (here `v`
is `x[i]`).  `fuel` is passed as `iMax - iAhead`, the exact iteration
bound; when fuel runs out the guard `iAhead < iMax` is false, so the
fuelled function returns exactly what the loop returns. -/
def plateauEnd (x : List ℚ) (iMax : ℕ) (v : ℚ) : ℕ → ℕ → ℕ
  | 0, iAhead => iAhead
  | fuel + 1, iAhead =>
    if iAhead < iMax ∧ x.getD iAhead 0 = v then plateauEnd x iMax v fuel (iAhead + 1)
    else iAhead

/-- Outer scan of SciPy's `_local_maxima_1d`: for `i` from `1` while
`i < i_max = n - 1`, a sample strictly greater than its left neighbour
opens a candidate; the plateau of equal values is skipped, and if the
value after the plateau is strictly smaller, the plateau midpoint
`(left_edge + right_edge) // 2` is recorded and `i` jumps past the
plateau.  `fuel ≥ iMax - i` bounds the iterations; at fuel zero the
guard `i < iMax` is false and the loop result is `[]`, as here. -/
def lmAux (x : List ℚ) (iMax : ℕ) : ℕ → ℕ → List ℕ
  | 0, _ => []
  | fuel + 1, i =>
    if i < iMax then
      if x.getD (i - 1) 0 < x.getD i 0 then
        let iAhead := plateauEnd x iMax (x.getD i 0) (iMax - (i + 1)) (i + 1)
        if x.getD iAhead 0 < x.getD i 0 then
          (i + (iAhead - 1)) / 2 :: lmAux x iMax fuel (iAhead + 1)
        else lmAux x iMax fuel (i + 1)
      else lmAux x iMax fuel (i + 1)
    else []

/-- SciPy `_local_maxima_1d(x)`: midpoints of strict local maxima
(plateaus allowed), scanning indices `1 .. n-2`. -/
def localMaxima (x : List ℚ) : List ℕ := lmAux x (x.length - 1) x.length 1

/-- Stable insertion of index `j` into a list of indices sorted by
ascending priority: `j` is placed after every already-present index of
equal priority. -/
def insertByPriority (priority : List ℚ) (j : ℕ) : List ℕ → List ℕ
  | [] => [j]
  | k :: ks =>
    if priority.getD j 0 < priority.getD k 0 then j :: k :: ks
    else k :: insertByPriority priority j ks

/-- `np.argsort(priority)` as used by SciPy's
`_select_by_peak_distance`: indices `0 .. len-1` sorted by ascending
priority.  NumPy's default sort is an unstable introsort, so the order
of equal priorities is unspecified there; the model fixes the stable
order (equal priorities keep their original index order).  None of the
theorems below depend on the order of equal-priority peaks. -/
def argsortByPriority (priority : List ℚ) : List ℕ :=
  (List.range priority.length).foldl (fun acc j => insertByPriority priority j acc) []

/-- The leftward removal loop of `_select_by_peak_distance`: for
`k = j-1` down while `k ≥ 0` and `peaks[j] - peaks[k] < distance`,
clear `keep[k]`.  `fuel` is passed as `(k+1).toNat`; at fuel zero
`k < 0`, the guard is false, and the loop result is `keep`, as here. -/
def killDown (peaks : List ℕ) (dist : ℕ) (pj : ℤ) : ℕ → ℤ → List Bool → List Bool
  | 0, _, keep => keep
  | fuel + 1, k, keep =>
    if 0 ≤ k ∧ pj - (peaks.getD k.toNat 0 : ℤ) < (dist : ℤ) then
      killDown peaks dist pj fuel (k - 1) (keep.set k.toNat false)
    else keep

/-- The rightward removal loop of `_select_by_peak_distance`: for
`k = j+1` up while `k < peaks_size` and `peaks[k] - peaks[j] < distance`,
clear `keep[k]`.  `fuel` is passed as `s - k`, the exact bound. -/
def killUp (peaks : List ℕ) (dist : ℕ) (pj : ℤ) (s : ℕ) : ℕ → ℕ → List Bool → List Bool
  | 0, _, keep => keep
  | fuel + 1, k, keep =>
    if k < s ∧ (peaks.getD k 0 : ℤ) - pj < (dist : ℤ) then
      killUp peaks dist pj s fuel (k + 1) (keep.set k false)
    else keep

/-- SciPy `_select_by_peak_distance(peaks, priority, distance)`: visit
peaks from highest to lowest priority; each still-kept peak clears all
neighbours closer than `distance` on both sides.  `distance` arrives
here already an integer (the source passes the int `MIN_PEAK_DISTANCE`,
so SciPy's `ceil` is the identity). -/
def selectByPeakDistance (peaks : List ℕ) (priority : List ℚ) (dist : ℕ) : List Bool :=
  let s := peaks.length
  (argsortByPriority priority).reverse.foldl
    (fun keep j =>
      if keep.getD j false = false then keep
      else
        killUp peaks dist (peaks.getD j 0 : ℤ) s (s - (j + 1)) (j + 1)
          (killDown peaks dist (peaks.getD j 0 : ℤ) j ((j : ℤ) - 1) keep))
    (List.replicate s true)

/-- `scipy.signal.find_peaks(x, distance=dist, height=hmin)` with a
scalar `height` lower bound: local maxima, filtered by height first,
then thinned by the distance condition (the evaluation order of
`find_peaks`). -/
def findPeaks (x : List ℚ) (dist : ℕ) (hmin : ℚ) : List ℕ :=
  let tall := (localMaxima x).filter (fun p => decide (hmin ≤ x.getD p 0))
  let keep := selectByPeakDistance tall (tall.map (fun p => x.getD p 0)) dist
  ((tall.zip keep).filter (fun pk => pk.2)).map (fun pk => pk.1)

/-- The value `detect_breaths` computes (`app.py` lines 245-266): the
returned pair `(len(peaks), smoothed_signal)` plus, instead of the
`log_alert` side effect, the boolean fact that the no-breath branch ran
(`len(recent_peaks) == 0`). -/
structure DetectResult where
  breathCount : ℕ
  smoothedSignal : List ℚ
  noBreathAlert : Bool
deriving DecidableEq

/-- `app.py` lines 245-266, `detect_breaths(data, sample_rate,
min_amplitude_change)`.  The call
`bandpass_filter(data, LOW_CUT, HIGH_CUT, sample_rate)` (a SciPy
`filtfilt` of a Butterworth design, floating-point and transcendental)
is abstracted as the function parameter `bandpass`; everything after it
is embedded exactly: 5-sample moving average, global peak search,
trailing `int(10 * sample_rate)`-sample slice, peak search on the
slice, and the no-breath alert condition. -/
def detect_breaths (bandpass : List ℚ → List ℚ) (data : List ℚ)
    (sample_rate : ℚ) (min_amplitude_change : ℚ) : DetectResult :=
  let filtered_signal := bandpass data
  let smoothed_signal := smooth filtered_signal
  let peaks := findPeaks smoothed_signal MIN_PEAK_DISTANCE min_amplitude_change
  let samples_in_10_seconds := (pyInt (10 * sample_rate)).toNat
  let recent_signal := pySliceLast samples_in_10_seconds smoothed_signal
  let recent_peaks := findPeaks recent_signal MIN_PEAK_DISTANCE min_amplitude_change
  ⟨peaks.length, smoothed_signal, recent_peaks.isEmpty⟩

/-- The three values `update_all_outputs` publishes per pass (the chart
series, the count text, and the frequency text; the figure is reduced
to the series it plots). -/
structure Outputs where
  breathCount : ℕ
  breathFrequency : ℚ
  filteredSignal : List ℚ
deriving DecidableEq

/-- `app.py` lines 173-218, `update_all_outputs`: slice the four
buffers to the sliding window, validate that each slice holds at least
`SAMPLE_RATE` samples (returning `dash.no_update`, modelled as `none`,
otherwise), then run detection and compute
`breath_frequency = (breath_count / window_size_seconds) * 60`.  The
second component records whether this pass emitted the no-breath
alert (it cannot when validation fails, because `detect_breaths` is
then never called). -/
def update_all_outputs (bandpass : List ℚ → List ℚ)
    (data_buffer x_data_buffer y_data_buffer z_data_buffer : List ℚ)
    (window_size_seconds : ℕ) (min_amplitude_change : ℚ) :
    Option Outputs × Bool :=
  let buffer_size := windowBufferSize window_size_seconds
  let data := pySliceLast buffer_size data_buffer
  let x_data := pySliceLast buffer_size x_data_buffer
  let y_data := pySliceLast buffer_size y_data_buffer
  let z_data := pySliceLast buffer_size z_data_buffer
  if (data.length : ℚ) < SAMPLE_RATE ∨ (x_data.length : ℚ) < SAMPLE_RATE ∨
      (y_data.length : ℚ) < SAMPLE_RATE ∨ (z_data.length : ℚ) < SAMPLE_RATE then
    (none, false)
  else
    let r := detect_breaths bandpass data SAMPLE_RATE min_amplitude_change
    let breath_frequency := ((r.breathCount : ℚ) / (window_size_seconds : ℚ)) * 60
    (some ⟨r.breathCount, breath_frequency, r.smoothedSignal⟩, r.noBreathAlert)

/-- An alert record as built by `log_alert` (`app.py` lines 220-228):
a timestamp (abstracted to an ordinal token for `datetime.now()`) and a
message. -/
structure Alert where
  timestamp : ℕ
  message : String
deriving DecidableEq

/-- `app.py` line 264: the fixed watchdog message. -/
def ALERT_MESSAGE : String := "Brak oddechu przez ostatnie 10 sekund!"

/-- `log_alert(message)` restricted to its effect on the in-process
`alerts` list: append exactly one record (the CSV mirror is I/O outside
the model). -/
def log_alert (alerts : List Alert) (timestamp : ℕ) (message : String) : List Alert :=
  alerts ++ [⟨timestamp, message⟩]

/-- The inputs one timer tick feeds to `update_all_outputs`, plus the
timestamp `datetime.now()` would yield if this pass logs an alert. -/
structure PassInput where
  dataBuf : List ℚ
  xBuf : List ℚ
  yBuf : List ℚ
  zBuf : List ℚ
  windowSeconds : ℕ
  minAmplitude : ℚ
  timestamp : ℕ

/-- Whether a compute pass on these inputs reaches `log_alert`. -/
def passFires (bandpass : List ℚ → List ℚ) (p : PassInput) : Bool :=
  (update_all_outputs bandpass p.dataBuf p.xBuf p.yBuf p.zBuf
    p.windowSeconds p.minAmplitude).2

/-- One compute pass, threaded through the shared `alerts` list: the
pass appends one record via `log_alert` exactly when its watchdog
branch fires, and leaves the list untouched otherwise. -/
def runPass (bandpass : List ℚ → List ℚ) (alerts : List Alert) (p : PassInput) :
    List Alert :=
  if passFires bandpass p then log_alert alerts p.timestamp ALERT_MESSAGE else alerts

/-- A sequence of compute passes in temporal order. -/
def runPasses (bandpass : List ℚ → List ℚ) (alerts : List Alert)
    (ps : List PassInput) : List Alert :=
  ps.foldl (runPass bandpass) alerts

/-- A Butterworth band-pass design, identified by its order and its two
normalized cutoffs.  The numeric coefficient vectors `(b, a)` are
irrational (SciPy computes them with `tan`/complex roots), so the
design is represented by the exact data that determines them. -/
structure FilterDesign where
  order : ℕ
  lowNormalized : ℚ
  highNormalized : ℚ
deriving DecidableEq

/-- `scipy.signal.butter(order, [low, high], btype="band")` for a
digital filter, modelled from the library's documented contract
(SciPy ≥ 1.5, `iirfilter`): critical frequencies must be strictly
positive, `Wn[0]` must be strictly below `Wn[1]`, and digital critical
frequencies must lie strictly below 1; each violation raises
`ValueError` with the quoted message, and nothing is clamped.  On
success the design is returned as its defining data. -/
def scipyButterBand (order : ℕ) (low high : ℚ) : Except String FilterDesign :=
  if low ≤ 0 ∨ high ≤ 0 then
    Except.error "filter critical frequencies must be greater than 0"
  else if ¬low < high then
    Except.error "Wn[0] must be less than Wn[1]"
  else if 1 ≤ low ∨ 1 ≤ high then
    Except.error "Digital filter critical frequencies must be 0 < Wn < 1"
  else
    Except.ok ⟨order, low, high⟩

/-- `app.py` lines 231-235, `butter_bandpass(lowcut, highcut, fs,
order=4)`: normalize the cutoffs by the Nyquist frequency `0.5 * fs`
and delegate to `butter` — the source itself performs no validation and
no clamping. -/
def butter_bandpass (lowcut highcut fs : ℚ) (order : ℕ) : Except String FilterDesign :=
  let nyquist := 1 / 2 * fs
  let low := lowcut / nyquist
  let high := highcut / nyquist
  scipyButterBand order low high

/-- Modelled from the spec: the spec's valleys — local minima subject
to the same distance constraint, with `valley value ≤
-min_amplitude_change` (the height-gated variant of §4.3) — realized as
peak detection on the negated series.  No valley detection exists
anywhere in the source. -/
def specValleys (x : List ℚ) (dist : ℕ) (amp : ℚ) : List ℕ :=
  findPeaks (x.map (fun a => -a)) dist amp

/-- Modelled from the spec: the min-count policy,
`breath_count = min(#peaks, #valleys)`. -/
def specMinCountPolicy (x : List ℚ) (dist : ℕ) (amp : ℚ) : ℕ :=
  min (findPeaks x dist amp).length (specValleys x dist amp).length

/-- Modelled from the spec: the paired-amplitude policy — pair peaks
and valleys by detection order (`zip` drops unpaired extrema), count a
pair when the valley precedes the peak and
`peak_value - valley_value ≥ min_amplitude_change`. -/
def specPairedAmplitudePolicy (x : List ℚ) (dist : ℕ) (amp : ℚ) : ℕ :=
  (((findPeaks x dist amp).zip (specValleys x dist amp)).filter (fun pv =>
    decide (pv.2 < pv.1) && decide (amp ≤ x.getD pv.1 0 - x.getD pv.2 0))).length

/-- A concrete window for the C1 counterexample: a flat zero signal of
60 samples carrying one small bump (a single clear peak, and no sample
anywhere below `-MIN_AMPLITUDE_CHANGE`, hence no spec-valley). -/
def bumpWindow : List ℚ :=
  List.replicate 28 0 ++ [1/20, 1/10, 1/20] ++ List.replicate 29 0

end BreathApp

namespace BreathApp

/-! ### Helper lemmas -/

theorem getD_zero_of_forall_zero (x : List ℚ) (h : ∀ a ∈ x, a = 0) (n : ℕ) :
    x.getD n 0 = 0 := by
  induction x generalizing n with
  | nil => simp [List.getD]
  | cons a xs ih =>
    cases n with
    | zero => simpa using h a (by simp)
    | succ n => simpa using ih (fun b hb => h b (by simp [hb])) n

theorem lmAux_nil_of_zero (x : List ℚ) (iMax : ℕ) (h : ∀ n, x.getD n 0 = 0) :
    ∀ fuel i, lmAux x iMax fuel i = [] := by
  intro fuel
  induction fuel with
  | zero => intro i; rfl
  | succ fuel ih =>
    intro i
    simp only [lmAux, h, lt_self_iff_false, if_false]
    split <;> simp [ih]

theorem localMaxima_nil_of_zero (x : List ℚ) (h : ∀ a ∈ x, a = 0) :
    localMaxima x = [] :=
  lmAux_nil_of_zero x (x.length - 1) (getD_zero_of_forall_zero x h) x.length 1

theorem findPeaks_nil_of_zero (x : List ℚ) (h : ∀ a ∈ x, a = 0) (dist : ℕ) (hmin : ℚ) :
    findPeaks x dist hmin = [] := by
  simp [findPeaks, localMaxima_nil_of_zero x h, selectByPeakDistance, argsortByPriority]

theorem pySliceLast_eq_self (k : ℕ) (l : List ℚ) (h : l.length ≤ k) :
    pySliceLast k l = l := by
  unfold pySliceLast
  split
  · rfl
  · rw [Nat.sub_eq_zero_of_le h, List.drop_zero]

theorem smooth_length (a : List ℚ) (h : 5 ≤ a.length) :
    (smooth a).length = a.length := by
  simp only [smooth, npConvolveSame, npConvolveFull, movingAverageKernel,
    List.length_take, List.length_drop, List.length_map, List.length_range,
    List.length_replicate]
  omega

theorem dequePush_eq_drop (cap : ℕ) (buf : List ℚ) (x : ℚ) :
    dequePush cap buf x = (buf ++ [x]).drop (buf.length + 1 - cap) := by
  unfold dequePush
  split
  · rw [Nat.sub_eq_zero_of_le (by omega), List.drop_zero]
  · rfl

theorem dequePushAll_eq_drop (cap : ℕ) :
    ∀ (xs buf : List ℚ), buf.length ≤ cap →
      dequePushAll cap buf xs = (buf ++ xs).drop ((buf ++ xs).length - cap) := by
  intro xs
  induction xs with
  | nil =>
    intro buf hb
    simp [dequePushAll, Nat.sub_eq_zero_of_le hb]
  | cons x xs ih =>
    intro buf hb
    have hstep : dequePushAll cap buf (x :: xs) =
        dequePushAll cap (dequePush cap buf x) xs := rfl
    rw [hstep, dequePush_eq_drop, ih _ (by simp [List.length_drop]; omega)]
    rw [← List.drop_append_of_le_length
      (by simp only [List.length_append, List.length_singleton]; omega),
      List.drop_drop]
    have harr : (buf ++ [x]) ++ xs = buf ++ x :: xs := by simp
    rw [harr]
    congr 1
    simp only [List.length_append, List.length_drop, List.length_cons,
      List.length_singleton]
    omega

end BreathApp

namespace BreathApp

/-! ### Claim theorems -/

/-- C3: for every sequence of pushes whose length exceeds the capacity
`cap`, the deque holds exactly the last `cap` pushed samples in push
order (strict FIFO eviction of the oldest), push is total, and the
buffer length never exceeds `cap` at any prefix of the push sequence. -/
theorem sample_buffer_fifo_last_cap (cap : ℕ) (xs : List ℚ) (h : cap < xs.length) :
    dequePushAll cap [] xs = xs.drop (xs.length - cap) ∧
    (dequePushAll cap [] xs).length = cap ∧
    ∀ n, (dequePushAll cap [] (xs.take n)).length ≤ cap := by
  have key : ∀ ys : List ℚ, dequePushAll cap [] ys = ys.drop (ys.length - cap) := by
    intro ys
    simpa using dequePushAll_eq_drop cap ys [] (by simp)
  refine ⟨key xs, ?_, ?_⟩
  · rw [key xs, List.length_drop]; omega
  · intro n; rw [key (xs.take n), List.length_drop]; omega

theorem sample_buffer_fifo_last_cap_witness :
    (2 : ℕ) < ([5, 6, 7] : List ℚ).length ∧
    dequePushAll 2 [] [5, 6, 7] = ([5, 6, 7] : List ℚ).drop (([5, 6, 7] : List ℚ).length - 2) :=
  ⟨by decide, (sample_buffer_fifo_last_cap 2 [5, 6, 7] (by decide)).1⟩

/-- C4: when the magnitude snapshot sliced for a compute pass holds
fewer than `SAMPLE_RATE` samples, `update_all_outputs` publishes
nothing at all (`dash.no_update`, modelled `none`) and the watchdog
branch cannot run — in particular no `breath_count = 0` and no rate is
ever presented for that pass. -/
theorem insufficient_data_publishes_nothing (bandpass : List ℚ → List ℚ)
    (data_buffer x_data_buffer y_data_buffer z_data_buffer : List ℚ)
    (window_size_seconds : ℕ) (min_amplitude_change : ℚ)
    (h : ((snapshot data_buffer (windowBufferSize window_size_seconds)).length : ℚ) <
      SAMPLE_RATE) :
    update_all_outputs bandpass data_buffer x_data_buffer y_data_buffer z_data_buffer
      window_size_seconds min_amplitude_change = (none, false) := by
  simp only [update_all_outputs]
  exact if_pos (Or.inl h)

theorem insufficient_data_publishes_nothing_witness :
    (((snapshot [] (windowBufferSize 60)).length : ℚ) < SAMPLE_RATE) ∧
    update_all_outputs (fun l => l) [] [] [] [] 60 MIN_AMPLITUDE_CHANGE = (none, false) :=
  ⟨by with_unfolding_all decide,
   insufficient_data_publishes_nothing (fun l => l) [] [] [] [] 60 MIN_AMPLITUDE_CHANGE
     (by with_unfolding_all decide)⟩

/-- C5 counterexample: requesting a window of length `k = 0` makes the
Python slice `list(buf)[-0:]` return the whole buffer, so the snapshot
returns strictly more samples than the `min(k, size) = 0` the claim
promises for every `k`. -/
theorem snapshot_zero_window_returns_all :
    snapshot [0, 1, 2] 0 = ([0, 1, 2] : List ℚ) ∧
    ¬(snapshot ([0, 1, 2] : List ℚ) 0).length ≤ min 0 ([0, 1, 2] : List ℚ).length :=
  ⟨rfl, by decide⟩

/-- C5 as amended: for every requested window length `k ≥ 1`,
`snapshot(k)` is exactly the last `min k size` samples, a suffix of the
buffer (hence in original order, most-recent-last), and the pure
function leaves the buffer unchanged. -/
theorem snapshot_last_min_window (buf : List ℚ) (k : ℕ) (hk : 1 ≤ k) :
    snapshot buf k = buf.drop (buf.length - k) ∧
    (snapshot buf k).length = min k buf.length ∧
    snapshot buf k <:+ buf := by
  have hne : k ≠ 0 := by omega
  have h1 : snapshot buf k = buf.drop (buf.length - k) := by
    simp [snapshot, pySliceLast, hne]
  refine ⟨h1, ?_, ?_⟩
  · rw [h1, List.length_drop]; omega
  · rw [h1]; exact List.drop_suffix _ _

theorem snapshot_last_min_window_witness :
    (1 : ℕ) ≤ 2 ∧ (snapshot [1, 2, 3] 2).length = min 2 ([1, 2, 3] : List ℚ).length :=
  ⟨by decide, (snapshot_last_min_window [1, 2, 3] 2 (by decide)).2.1⟩

/-- C6: whenever a compute pass with a positive window publishes an
output, the published rate is exactly
`breath_count / window_seconds * 60`; and the settings slider rejects
non-positive window sizes (its minimum is 5) before compute time. -/
theorem breath_rate_formula (bandpass : List ℚ → List ℚ)
    (data_buffer x_data_buffer y_data_buffer z_data_buffer : List ℚ)
    (window_size_seconds : ℕ) (min_amplitude_change : ℚ)
    (o : Outputs) (fired : Bool) (hw : 0 < window_size_seconds)
    (h : update_all_outputs bandpass data_buffer x_data_buffer y_data_buffer z_data_buffer
      window_size_seconds min_amplitude_change = (some o, fired)) :
    o.breathFrequency = ((o.breathCount : ℚ) / (window_size_seconds : ℚ)) * 60 ∧
    0 < slidingWindowSliderMin := by
  refine ⟨?_, by decide⟩
  simp only [update_all_outputs] at h
  split at h
  · exact absurd h (by simp)
  · rw [Prod.mk.injEq, Option.some_inj] at h
    obtain ⟨ho, -⟩ := h
    subst ho
    rfl

theorem breath_rate_formula_witness :
    0 < 60 ∧
    update_all_outputs (fun l => l) (List.replicate 49 0) (List.replicate 49 0)
      (List.replicate 49 0) (List.replicate 49 0) 60 MIN_AMPLITUDE_CHANGE =
      (some ⟨0, 0, List.replicate 49 0⟩, true) ∧
    ((⟨0, 0, List.replicate 49 0⟩ : Outputs).breathFrequency =
      (((⟨0, 0, List.replicate 49 0⟩ : Outputs).breathCount : ℚ) / ((60 : ℕ) : ℚ)) * 60 ∧
     0 < slidingWindowSliderMin) :=
  ⟨by decide, by with_unfolding_all decide,
   breath_rate_formula (fun l => l) (List.replicate 49 0) (List.replicate 49 0)
     (List.replicate 49 0) (List.replicate 49 0) 60 MIN_AMPLITUDE_CHANGE
     ⟨0, 0, List.replicate 49 0⟩ true (by decide) (by with_unfolding_all decide)⟩

end BreathApp

namespace BreathApp

/-- C2: the watchdog check re-runs peak detection on exactly the
trailing `int(10 * sample_rate)`-sample slice of the already-smoothed
published series (no re-filtering), and the alert fires iff that slice
has zero peaks satisfying the height/distance constraints; in
particular a flat all-zero trailing slice fires it, and a slice with a
qualifying peak does not.  At the source's `SAMPLE_RATE` the trailing
window is 487 samples. -/
theorem watchdog_alert_iff_no_recent_peaks (bandpass : List ℚ → List ℚ) (data : List ℚ)
    (sample_rate amp : ℚ) (hne : 1 ≤ (bandpass data).length) :
    ((detect_breaths bandpass data sample_rate amp).noBreathAlert = true ↔
      findPeaks (pySliceLast (pyInt (10 * sample_rate)).toNat (smooth (bandpass data)))
        MIN_PEAK_DISTANCE amp = []) ∧
    ((∀ a ∈ pySliceLast (pyInt (10 * sample_rate)).toNat (smooth (bandpass data)), a = 0) →
      (detect_breaths bandpass data sample_rate amp).noBreathAlert = true) ∧
    (findPeaks (pySliceLast (pyInt (10 * sample_rate)).toNat (smooth (bandpass data)))
        MIN_PEAK_DISTANCE amp ≠ [] →
      (detect_breaths bandpass data sample_rate amp).noBreathAlert = false) ∧
    (pyInt (10 * SAMPLE_RATE)).toNat = 487 := by
  have halert : (detect_breaths bandpass data sample_rate amp).noBreathAlert =
      (findPeaks (pySliceLast (pyInt (10 * sample_rate)).toNat (smooth (bandpass data)))
        MIN_PEAK_DISTANCE amp).isEmpty := rfl
  refine ⟨?_, ?_, ?_, by with_unfolding_all decide⟩
  · rw [halert, List.isEmpty_iff]
  · intro hz
    rw [halert, List.isEmpty_iff]
    exact findPeaks_nil_of_zero _ hz _ _
  · intro hnp
    rw [halert]
    cases hE : (findPeaks (pySliceLast (pyInt (10 * sample_rate)).toNat
        (smooth (bandpass data))) MIN_PEAK_DISTANCE amp).isEmpty
    · rfl
    · exact absurd (List.isEmpty_iff.mp hE) hnp

theorem watchdog_alert_iff_no_recent_peaks_witness :
    1 ≤ ((fun l => l) (List.replicate 20 (0 : ℚ))).length ∧
    (detect_breaths (fun l => l) (List.replicate 20 0) SAMPLE_RATE
      MIN_AMPLITUDE_CHANGE).noBreathAlert = true :=
  ⟨by decide,
   (watchdog_alert_iff_no_recent_peaks (fun l => l) (List.replicate 20 0) SAMPLE_RATE
      MIN_AMPLITUDE_CHANGE (by decide)).2.1 (by with_unfolding_all decide)⟩

/-- C9: the series `detect_breaths` returns and publishes is the
band-pass output convolved with the 5-sample moving average
(`np.convolve(.., ones(5)/5, 'same')`, length-preserving once the input
holds at least the kernel's 5 samples), not the raw band-pass output —
the smoothing is not the identity — and both the breath count and the
watchdog's trailing-window check are computed on that smoothed series. -/
theorem published_series_is_smoothed (bandpass : List ℚ → List ℚ) (data : List ℚ)
    (sample_rate amp : ℚ) (hne : 1 ≤ (bandpass data).length) :
    (detect_breaths bandpass data sample_rate amp).smoothedSignal =
      npConvolveSame (bandpass data) movingAverageKernel ∧
    (5 ≤ (bandpass data).length →
      (detect_breaths bandpass data sample_rate amp).smoothedSignal.length =
        (bandpass data).length) ∧
    (detect_breaths bandpass data sample_rate amp).breathCount =
      (findPeaks (smooth (bandpass data)) MIN_PEAK_DISTANCE amp).length ∧
    (detect_breaths bandpass data sample_rate amp).noBreathAlert =
      (findPeaks (pySliceLast (pyInt (10 * sample_rate)).toNat (smooth (bandpass data)))
        MIN_PEAK_DISTANCE amp).isEmpty ∧
    (∃ f : List ℚ, 1 ≤ f.length ∧ npConvolveSame f movingAverageKernel ≠ f) := by
  refine ⟨rfl, ?_, rfl, rfl, List.replicate 5 1, by decide, by with_unfolding_all decide⟩
  intro h5
  exact smooth_length _ h5

theorem published_series_is_smoothed_witness :
    1 ≤ ((fun l => l) (List.replicate 7 (1 : ℚ))).length ∧
    5 ≤ ((fun l => l) (List.replicate 7 (1 : ℚ))).length ∧
    (detect_breaths (fun l => l) (List.replicate 7 1) SAMPLE_RATE
      MIN_AMPLITUDE_CHANGE).smoothedSignal.length =
      ((fun l => l) (List.replicate 7 (1 : ℚ))).length :=
  ⟨by decide, by decide,
   (published_series_is_smoothed (fun l => l) (List.replicate 7 1) SAMPLE_RATE
      MIN_AMPLITUDE_CHANGE (by decide)).2.1 (by decide)⟩

/-- C10: on a pass whose snapshot holds at least `SAMPLE_RATE` samples
(49 or more) but fewer than the 487 samples of the 10-second watchdog
window, the Python slice of a shorter sequence evaluates without error
to the entire smoothed series, so the fixed 10-second no-breath check
runs over less than 10 seconds of data instead of being skipped. -/
theorem watchdog_runs_on_short_window (bandpass : List ℚ → List ℚ) (data : List ℚ)
    (amp : ℚ) (h1 : 49 ≤ (bandpass data).length) (h2 : (bandpass data).length < 487) :
    pySliceLast (pyInt (10 * SAMPLE_RATE)).toNat (smooth (bandpass data)) =
      smooth (bandpass data) ∧
    (detect_breaths bandpass data SAMPLE_RATE amp).noBreathAlert =
      (findPeaks (smooth (bandpass data)) MIN_PEAK_DISTANCE amp).isEmpty := by
  have hlen : (smooth (bandpass data)).length = (bandpass data).length :=
    smooth_length _ (by omega)
  have h487 : (pyInt (10 * SAMPLE_RATE)).toNat = 487 := by with_unfolding_all decide
  have hslice : pySliceLast (pyInt (10 * SAMPLE_RATE)).toNat (smooth (bandpass data)) =
      smooth (bandpass data) := by
    rw [h487]
    exact pySliceLast_eq_self _ _ (by omega)
  refine ⟨hslice, ?_⟩
  have halert : (detect_breaths bandpass data SAMPLE_RATE amp).noBreathAlert =
      (findPeaks (pySliceLast (pyInt (10 * SAMPLE_RATE)).toNat (smooth (bandpass data)))
        MIN_PEAK_DISTANCE amp).isEmpty := rfl
  rw [halert, hslice]

theorem watchdog_runs_on_short_window_witness :
    49 ≤ ((fun l => l) (List.replicate 100 (0 : ℚ))).length ∧
    ((fun l => l) (List.replicate 100 (0 : ℚ))).length < 487 ∧
    pySliceLast (pyInt (10 * SAMPLE_RATE)).toNat
      (smooth ((fun l => l) (List.replicate 100 (0 : ℚ)))) =
      smooth ((fun l => l) (List.replicate 100 (0 : ℚ))) :=
  ⟨by decide, by decide,
   (watchdog_runs_on_short_window (fun l => l) (List.replicate 100 0) MIN_AMPLITUDE_CHANGE
      (by decide) (by decide)).1⟩

end BreathApp

namespace BreathApp

/-- C1 counterexample: on the bump window the source's detector returns
breath count 1, while the spec's min-count policy and paired-amplitude
policy — evaluated on the very series the detector publishes — both
return 0 (the series has one qualifying peak and no qualifying valley),
so `detect_breaths` computes neither claimed policy. -/
theorem detect_breaths_neither_policy_at_bump :
    (detect_breaths (fun l => l) bumpWindow SAMPLE_RATE MIN_AMPLITUDE_CHANGE).breathCount ≠
      specMinCountPolicy
        (detect_breaths (fun l => l) bumpWindow SAMPLE_RATE
          MIN_AMPLITUDE_CHANGE).smoothedSignal
        MIN_PEAK_DISTANCE MIN_AMPLITUDE_CHANGE ∧
    (detect_breaths (fun l => l) bumpWindow SAMPLE_RATE MIN_AMPLITUDE_CHANGE).breathCount ≠
      specPairedAmplitudePolicy
        (detect_breaths (fun l => l) bumpWindow SAMPLE_RATE
          MIN_AMPLITUDE_CHANGE).smoothedSignal
        MIN_PEAK_DISTANCE MIN_AMPLITUDE_CHANGE := by
  with_unfolding_all decide

/-- C1 as amended: `detect_breaths` implements a single hard-coded
counting policy, `breath_count = #peaks` of the smoothed series under
the height and distance constraints; no valleys are detected, no
pairing is performed, and no policy is configurable.  The spec's
min-count policy (on the published series) is consequently only a lower
bound of what the code reports. -/
theorem detect_breaths_counts_peaks_only (bandpass : List ℚ → List ℚ) (data : List ℚ)
    (sample_rate amp : ℚ) :
    (detect_breaths bandpass data sample_rate amp).breathCount =
      (findPeaks (smooth (bandpass data)) MIN_PEAK_DISTANCE amp).length ∧
    specMinCountPolicy (smooth (bandpass data)) MIN_PEAK_DISTANCE amp ≤
      (detect_breaths bandpass data sample_rate amp).breathCount :=
  ⟨rfl, min_le_left _ _⟩

/-- C7: `butter_bandpass` never clamps — it hands the exact normalized
cutoffs `cutoff / (fs / 2)` to the SciPy design — and, through SciPy's
own validation (the source performs none), the design succeeds iff
`0 < lowcut < highcut < nyquist`. -/
theorem butter_bandpass_validation (lowcut highcut fs : ℚ) (order : ℕ) (hfs : 0 < fs) :
    ((∃ d, butter_bandpass lowcut highcut fs order = Except.ok d) ↔
      (0 < lowcut ∧ lowcut < highcut ∧ highcut < fs / 2)) ∧
    (∀ d, butter_bandpass lowcut highcut fs order = Except.ok d →
      d.order = order ∧ d.lowNormalized = lowcut / (fs / 2) ∧
      d.highNormalized = highcut / (fs / 2)) := by
  have hn : (0 : ℚ) < 1 / 2 * fs := by linarith
  have h2 : (1 : ℚ) / 2 * fs = fs / 2 := by ring
  have e1 : (0 < lowcut / (1 / 2 * fs)) ↔ 0 < lowcut := by
    rw [lt_div_iff hn, zero_mul]
  have e1h : (0 < highcut / (1 / 2 * fs)) ↔ 0 < highcut := by
    rw [lt_div_iff hn, zero_mul]
  have e3 : (lowcut / (1 / 2 * fs) < highcut / (1 / 2 * fs)) ↔ lowcut < highcut := by
    rw [div_lt_div_iff hn hn, mul_lt_mul_right hn]
  have e4 : (lowcut / (1 / 2 * fs) < 1) ↔ lowcut < 1 / 2 * fs := div_lt_one hn
  have e5 : (highcut / (1 / 2 * fs) < 1) ↔ highcut < 1 / 2 * fs := div_lt_one hn
  constructor
  · constructor
    · rintro ⟨d, hd⟩
      simp only [butter_bandpass, scipyButterBand] at hd
      split_ifs at hd with hA hB hC
      push_neg at hA hC
      refine ⟨e1.mp hA.1, e3.mp hB, ?_⟩
      rw [← h2]
      exact e5.mp hC.2
    · rintro ⟨hl, hlh, hh⟩
      have hh' : highcut / (1 / 2 * fs) < 1 := e5.mpr (by rw [h2]; exact hh)
      have hA : ¬(lowcut / (1 / 2 * fs) ≤ 0 ∨ highcut / (1 / 2 * fs) ≤ 0) := by
        push_neg
        exact ⟨e1.mpr hl, e1h.mpr (hl.trans hlh)⟩
      have hB : ¬¬(lowcut / (1 / 2 * fs) < highcut / (1 / 2 * fs)) :=
        not_not_intro (e3.mpr hlh)
      have hC : ¬((1 : ℚ) ≤ lowcut / (1 / 2 * fs) ∨ (1 : ℚ) ≤ highcut / (1 / 2 * fs)) := by
        push_neg
        exact ⟨(e3.mpr hlh).trans hh', hh'⟩
      refine ⟨⟨order, lowcut / (1 / 2 * fs), highcut / (1 / 2 * fs)⟩, ?_⟩
      simp only [butter_bandpass, scipyButterBand]
      rw [if_neg hA, if_neg hB, if_neg hC]
  · intro d hd
    simp only [butter_bandpass, scipyButterBand] at hd
    split_ifs at hd
    obtain rfl : FilterDesign.mk order (lowcut / (1 / 2 * fs)) (highcut / (1 / 2 * fs)) = d :=
      Except.ok.inj hd
    exact ⟨rfl, by rw [h2], by rw [h2]⟩

theorem butter_bandpass_validation_witness :
    (0 : ℚ) < SAMPLE_RATE ∧
    (∃ d, butter_bandpass LOW_CUT HIGH_CUT SAMPLE_RATE 4 = Except.ok d) :=
  ⟨by with_unfolding_all decide,
   (butter_bandpass_validation LOW_CUT HIGH_CUT SAMPLE_RATE 4
      (by with_unfolding_all decide)).1.mpr
     ⟨by with_unfolding_all decide, by with_unfolding_all decide,
      by with_unfolding_all decide⟩⟩

/-- C8: across any sequence of compute passes the core performs no
alert deduplication: every pass whose watchdog finds zero qualifying
trailing peaks appends exactly one alert record, non-firing passes
append none, and the records accumulate in detection order. -/
theorem alerts_no_dedup_append_order (bandpass : List ℚ → List ℚ)
    (alerts : List Alert) (ps : List PassInput) :
    runPasses bandpass alerts ps =
      alerts ++ (ps.filter (passFires bandpass)).map
        (fun p => ⟨p.timestamp, ALERT_MESSAGE⟩) := by
  induction ps generalizing alerts with
  | nil => simp [runPasses]
  | cons p ps ih =>
    have hstep : runPasses bandpass alerts (p :: ps) =
        runPasses bandpass (runPass bandpass alerts p) ps := rfl
    rw [hstep, ih]
    cases hf : passFires bandpass p
    · simp [runPass, hf, List.filter_cons]
    · simp [runPass, hf, log_alert, List.filter_cons, List.append_assoc]

end BreathApp
